import Mathlib

/-!
Shallow embedding of the arboretum napari plugin.

Namespace `ArbCore` models `src/arboretum/core.py`; namespace `NapArb`
models `src/napari_arboretum/plugin.py`.  Host objects (the napari
viewer, its registries, Qt widgets and signals) are modelled as explicit
state records, and calls into external libraries (`napari`, `btrack`,
the `utils` HDF loader, the `TrackManager` constructor) are abstract
function parameters gathered in an environment record: the plugin code
under verification never inspects their results, it only stores and
forwards them, so quantifying over those functions captures the source
faithfully.
-/

namespace ArbCore

/-- Opaque token for a segmentation array (a numpy ndarray in the source). -/
abbrev Seg := Nat

/-- Opaque token for one raw track set (a raw track array in the source). -/
abbrev TrackSet := Nat

/-- Localizations are an N x D numeric table; `locs[:, :3]` in the source
takes the first three columns, modelled as `List.take 3` per row. -/
abbrev Locs := List (List Int)

/-- Opaque token for a btrack configuration object. -/
abbrev Cfg := Nat

/-- Opaque token for the tracking volume. -/
abbrev Vol := Nat

/-- Opaque token for the tracker state returned by `utils.track`. -/
abbrev TrackerState := Nat

/-- A `TrackManager` as consumed by `core.py`: the plugin only reads its
`data` and `properties` attributes when building a `Tracks` layer. -/
structure TrackManager where
  data : Nat
  properties : Nat
deriving DecidableEq

/-- External functions `core.py` delegates to.  Their bodies live outside
`src/` (in `utils` and `manager.py` of the repository, and in `btrack`),
so they are abstract parameters of the embedding. -/
structure Ext where
  load_hdf : String → Seg × List TrackSet
  localize : Seg → Locs
  track : Locs → Cfg → Bool → Vol → TrackerState
  trackManager : TrackSet → TrackManager

/-- Keys of the napari layer registries touched by `register_tracks_layer`. -/
inductive LayerType
  | tracks
  | labels
  | points
  | image
  | shapes
deriving DecidableEq

/-- Values of `napari._vispy.utils.layer_to_visual`. -/
inductive VisualClass
  | vispyTracksLayer
  | otherVisual (n : Nat)
deriving DecidableEq

/-- Values of `napari._qt.layers.utils.layer_to_controls`. -/
inductive ControlsClass
  | qtTracksControls
  | otherControls (n : Nat)
deriving DecidableEq

/-- The two internal napari registry dictionaries written by
`_register_tracks_layer`, modelled as partial maps. -/
structure NapariRegistries where
  layer_to_visual : LayerType → Option VisualClass
  layer_to_controls : LayerType → Option ControlsClass

/-- Model of `_register_tracks_layer` (core.py lines 32-47): two dictionary
assignments keyed by the custom `Tracks` layer class. -/
def register_tracks_layer (regs : NapariRegistries) : NapariRegistries :=
  { layer_to_visual := fun k =>
      if k = LayerType.tracks then some VisualClass.vispyTracksLayer
      else regs.layer_to_visual k,
    layer_to_controls := fun k =>
      if k = LayerType.tracks then some ControlsClass.qtTracksControls
      else regs.layer_to_controls k }

/-- Layers added to the viewer by `core.py`: labels layers via `add_labels`,
points layers via `add_points`, and arboretum `Tracks` layers via `add_layer`.
The constant `colormaps` argument of the `Tracks` constructor carries no
claim-relevant information and is omitted. -/
inductive CoreLayer
  | labelsLayer (name : String) (data : Seg) (editable : Bool)
  | pointsLayer (name : String) (data : List (List Int)) (face_color : String)
  | tracksLayer (name : String) (data : Nat) (properties : Nat)
deriving DecidableEq

/-- A dock widget entry of `viewer.window`. -/
structure DockWidget where
  name : String
  area : String
deriving DecidableEq

/-- The napari viewer as seen from `core.py`.  `active_layer_data` models
the host lookup `viewer.layers[viewer.active_layer]`. -/
structure CoreViewer where
  registries : NapariRegistries
  layers : List CoreLayer
  dock_widgets : List DockWidget
  active_layer : String
  active_layer_data : Seg

/-- State of the v1 `Arboretum` Qt widget as read and written by `core.py`
(the widget class itself lives in `arboretum/plugin.py`, outside `src/`;
only the attributes `core.py` touches are modelled). -/
structure ArborState where
  filename : Option String
  segmentation : Option Seg
  tracks : Option (List TrackSet)
  localizations : Option Locs
  tracker_state : Option TrackerState
  active_layer : String
  status_label : String
  optimize_checkbox : Bool
  btrack_cfg : Cfg
  volume : Vol
deriving DecidableEq

/-- Combined mutable state threaded through the `build_plugin_v2` closures. -/
structure SysState where
  viewer : CoreViewer
  arbor : ArborState

/-- The argument of `build_plugin`: either an existing `TrackManager` or
raw track arrays (the `isinstance(tracks, TrackManager)` test). -/
inductive TracksArg
  | manager (m : TrackManager)
  | raw (r : TrackSet)

/-- Model of `build_plugin` (core.py lines 55-71): register the custom
layers, build or reuse a `TrackManager`, and add one `Tracks` layer named
`Tracks` holding the manager's data and properties. -/
def build_plugin (ext : Ext) (viewer : CoreViewer) (tracks : TracksArg) :
    CoreViewer :=
  let viewer := { viewer with registries := register_tracks_layer viewer.registries }
  let manager := match tracks with
    | TracksArg.manager m => m
    | TracksArg.raw r => ext.trackManager r
  { viewer with layers := viewer.layers ++
      [CoreLayer.tracksLayer "Tracks" manager.data manager.properties] }

/-- Model of `new_layer_name`: format the source layer name with the
widget's active layer, `f'{s} {arbor.active_layer}'`. -/
def new_layer_name (arbor : ArborState) (s : String) : String :=
  s ++ " " ++ arbor.active_layer

/-- Model of the `add_segmentation_layer` closure (core.py lines 104-108). -/
def add_segmentation_layer (editable : Bool) (s : SysState) : SysState :=
  match s.arbor.segmentation with
  | none => s
  | some seg =>
      { s with viewer := { s.viewer with layers := s.viewer.layers ++
          [CoreLayer.labelsLayer "Segmentation" seg editable] } }

/-- Model of the `add_localizations_layer` closure (core.py lines 110-115). -/
def add_localizations_layer (s : SysState) : SysState :=
  match s.arbor.localizations with
  | none => s
  | some locs =>
      { s with viewer := { s.viewer with layers := s.viewer.layers ++
          [CoreLayer.pointsLayer (new_layer_name s.arbor "Localizations")
            (locs.map (fun row => row.take 3)) "b"] } }

/-- Model of the `add_track_layer` closure (core.py lines 116-128): one
`Tracks` layer per enumerated track set, each via a fresh `TrackManager`. -/
def add_track_layer (ext : Ext) (s : SysState) : SysState :=
  match s.arbor.tracks with
  | none => s
  | some ts =>
      let newLayers := ts.enum.map (fun p =>
        let manager := ext.trackManager p.2
        CoreLayer.tracksLayer
          (new_layer_name s.arbor ("Tracks " ++ toString p.1))
          manager.data manager.properties)
      { s with viewer := { s.viewer with layers := s.viewer.layers ++ newLayers } }

/-- Model of `add_segmentation_and_track_layers` (core.py lines 131-134). -/
def add_segmentation_and_track_layers (ext : Ext) (s : SysState) : SysState :=
  add_track_layer ext (add_segmentation_layer false s)

/-- Model of the `_import` worker body (core.py lines 140-146). -/
def import_compute (ext : Ext) (s : SysState) : SysState :=
  match s.arbor.filename with
  | none => s
  | some fn =>
      let seg := (ext.load_hdf fn).1
      let tracks := (ext.load_hdf fn).2
      { s with arbor := { s.arbor with
          segmentation := some seg, tracks := some tracks } }

/-- Model of the `_localize` worker body (core.py lines 158-164). -/
def localize_compute (ext : Ext) (s : SysState) : SysState :=
  let a1 := { s.arbor with active_layer := s.viewer.active_layer }
  let a2 := { a1 with segmentation := some s.viewer.active_layer_data }
  let a3 := { a2 with status_label := "Localizing..." }
  let a4 := { a3 with
    localizations := some (ext.localize s.viewer.active_layer_data) }
  let a5 := { a4 with status_label := "" }
  { s with arbor := a5 }

/-- Model of the `_track` worker body (core.py lines 176-186). -/
def track_compute (ext : Ext) (s : SysState) : SysState :=
  match s.arbor.localizations with
  | none => s
  | some locs =>
      let a1 := { s.arbor with status_label := "Tracking..." }
      let tracker_state :=
        ext.track locs s.arbor.btrack_cfg s.arbor.optimize_checkbox s.arbor.volume
      let a2 := { a1 with tracker_state := some tracker_state }
      let a3 := { a2 with status_label := "" }
      { s with arbor := a3 }

/-- A thread worker as produced by a button handler: the background
computation, plus the callback connected to the worker's `returned`
signal. -/
structure WorkerSpec where
  compute : SysState → SysState
  callback : SysState → SysState

/-- Lifecycle events of a started worker. -/
inductive WorkerEvent
  | started
  | computeReturned
  | callbackRun
deriving DecidableEq

/-- Host semantics of `worker.start()` for a worker whose `returned` signal
is connected to `callback`: the computation runs in the background, the
`returned` signal fires when it finishes, and only then does the callback
run on the resulting state.  The event list is the observable order. -/
def start_worker (w : WorkerSpec) (s : SysState) : SysState × List WorkerEvent :=
  (w.callback (w.compute s),
   [WorkerEvent.started, WorkerEvent.computeReturned, WorkerEvent.callbackRun])

/-- Model of the `import_objects` handler (core.py lines 136-150): build a
worker around `_import` and connect `add_segmentation_and_track_layers`
to its `returned` signal. -/
def import_objects (ext : Ext) : WorkerSpec :=
  { compute := import_compute ext,
    callback := add_segmentation_and_track_layers ext }

/-- Model of the `localize_objects` handler (core.py lines 154-168). -/
def localize_objects (ext : Ext) : WorkerSpec :=
  { compute := localize_compute ext,
    callback := add_localizations_layer }

/-- Model of the `track_objects` handler (core.py lines 172-190). -/
def track_objects (ext : Ext) : WorkerSpec :=
  { compute := track_compute ext,
    callback := add_track_layer ext }

/-- Names of the three button handlers defined inside `build_plugin_v2`. -/
inductive ButtonHandler
  | importObjects
  | localizeObjects
  | trackObjects
deriving DecidableEq

/-- The worker each named handler builds, connects and starts. -/
def handler_worker (ext : Ext) : ButtonHandler → WorkerSpec
  | ButtonHandler.importObjects => import_objects ext
  | ButtonHandler.localizeObjects => localize_objects ext
  | ButtonHandler.trackObjects => track_objects ext

/-- Clicking a button runs its connected handler, which creates its worker
and starts it. -/
def click_button (ext : Ext) (h : ButtonHandler) (s : SysState) :
    SysState × List WorkerEvent :=
  start_worker (handler_worker ext h) s

/-- The `clicked.connect` wiring established by `build_plugin_v2`
(core.py lines 196-203). -/
structure PluginWiring where
  load_button : List ButtonHandler
  localize_button : List ButtonHandler
  track_button : List ButtonHandler
deriving DecidableEq

/-- Model of `build_plugin_v2` (core.py lines 76-208): register the custom
layers, dock the freshly constructed `Arboretum` widget (its constructor is
outside `src/`, so its initial attribute state is the parameter `arbor0`),
wire the three buttons, and, when a segmentation is passed, store it on the
widget and add it as an editable labels layer. -/
def build_plugin_v2 (ext : Ext) (arbor0 : ArborState) (viewer : CoreViewer)
    (segmentation : Option Seg) : SysState × PluginWiring :=
  let viewer := { viewer with registries := register_tracks_layer viewer.registries }
  let viewer := { viewer with dock_widgets := viewer.dock_widgets ++
    [{ name := "arboretum", area := "right" }] }
  let s : SysState := { viewer := viewer, arbor := arbor0 }
  let wiring : PluginWiring :=
    { load_button := [ButtonHandler.importObjects],
      localize_button := [ButtonHandler.localizeObjects],
      track_button := [ButtonHandler.trackObjects] }
  let s := match segmentation with
    | none => s
    | some seg =>
        let s := { s with arbor := { s.arbor with segmentation := some seg } }
        add_segmentation_layer true s
  (s, wiring)

end ArbCore

namespace NapArb

/-- Opaque token for a cursor position (`event.position`). -/
abbrev Position := Nat

/-- One row of `layer.properties` viewed as a data frame: column name to
numeric value (the columns used by the plugin are `track_id`, `t` and the
layer's `color_by` property). -/
structure PropRow where
  col : String → Int

/-- A napari `Tracks` layer as read by `plugin.py`: an object identity for
membership tests, the `color_by` attribute, the `properties` table, and the
host method `get_value` resolving a cursor position to a track id. -/
structure TracksLayer where
  id : Nat
  color_by : String
  properties : List PropRow
  get_value : Position → Option Int

/-- A layer of the napari viewer: either a `Tracks` layer or any other
layer type (the `isinstance(layer, napari.layers.Tracks)` test). -/
inductive NLayer
  | tracks (tl : TracksLayer)
  | other (n : Nat)

/-- The viewer dims, holding `current_step` (a per-dimension tuple; napari
keeps it nonempty, theorems about its first component carry that shape as
a hypothesis). -/
structure NDims where
  current_step : List Int

/-- The napari viewer as seen from `plugin.py`. -/
structure NViewer where
  layers : List NLayer
  dims : NDims

/-- State of the tree plotter (`VisPyPlotter`) as driven by `plugin.py`:
the `tracks` attribute it is assigned, the `has_tracks` flag it exposes,
the track id of the last drawn tree, and the position of the time line.
The plotter classes live in the `visualisation` module outside `src/`, so
`has_tracks` is an abstract field rather than a derived one. -/
structure PlotterState where
  tracks : Option Nat
  has_tracks : Bool
  drawn_tree : Option Int
  time_line : Option Int
deriving DecidableEq

/-- State of the property plotter (`MPLPropertyPlotter`) as driven by
`plugin.py`: its `tracks` attribute, the last plotted `(t, prop)` series,
and the axis labels. -/
structure PropPlotterState where
  tracks : Option Nat
  plotted : Option (List Int × List Int)
  xlabel : String
  ylabel : String
deriving DecidableEq

/-- Event sources the widget constructor connects to. -/
inductive EvtSrc
  | layersChanged
  | dimsCurrentStep
deriving DecidableEq, BEq

/-- The widget methods used as event handlers. -/
inductive HandlerName
  | updateTracksLayers
  | drawCurrentTimeLine
deriving DecidableEq

/-- State of the v2 `Arboretum` widget: the two plotters, the event
connections made in the constructor, the cached `tracks_layers` list, the
stored `track_id`, and the per-layer callback attachments (which layers got
the mouse callback and which got their `color_by` and `colormap` events
connected to `update_edge_colors`). -/
structure ArboretumState where
  plotter : PlotterState
  property_plotter : PropPlotterState
  connections : List (EvtSrc × HandlerName)
  tracks_layers : List TracksLayer
  track_id : Option Int
  mouse_callback_layers : List Nat
  color_by_connected : List Nat
  colormap_connected : List Nat

/-- Python truthiness of the value returned by `layer.get_value`: `None`
and the integer `0` are falsy. -/
def pyFalsy : Option Int → Bool
  | none => true
  | some v => v == 0

/-- Model of `get_property` (plugin.py lines 107-112): select the rows of
`layer.properties` whose `track_id` equals the given id, and return their
`t` column paired with their `color_by` column. -/
def get_property (layer : TracksLayer) (track_id : Int) :
    List Int × List Int :=
  let rows := layer.properties.filter (fun r => r.col "track_id" == track_id)
  (rows.map (fun r => r.col "t"), rows.map (fun r => r.col layer.color_by))

/-- Observable effects of `draw_current_time_line`: reading
`viewer.dims.current_step` and redrawing the plotter's time line. -/
inductive PEff
  | readCurrentStep
  | drawTimeLine (z : Int)
deriving DecidableEq

/-- Model of `Arboretum.draw_current_time_line` (plugin.py lines 100-104):
return immediately when the plotter holds no tracks, otherwise read the
first component of `viewer.dims.current_step` and redraw the time line
there.  The effect list records what was touched. -/
def draw_current_time_line (viewer : NViewer) (self : ArboretumState) :
    ArboretumState × List PEff :=
  if !self.plotter.has_tracks then (self, [])
  else
    let z := viewer.dims.current_step.headI
    ({ self with plotter := { self.plotter with time_line := some z } },
     [PEff.readCurrentStep, PEff.drawTimeLine z])

/-- Model of the `show_tree` mouse callback (plugin.py lines 81-98): assign
the clicked layer to both plotters, resolve the cursor position to a track
id, return early when it is falsy, otherwise draw the tree, store the id,
plot the property series with its labels, and redraw the time line. -/
def show_tree (viewer : NViewer) (self : ArboretumState)
    (layer : TracksLayer) (pos : Position) : ArboretumState × List PEff :=
  let self := { self with
    plotter := { self.plotter with tracks := some layer.id },
    property_plotter := { self.property_plotter with tracks := some layer.id } }
  let tid := layer.get_value pos
  if pyFalsy tid then (self, [])
  else
    let t := tid.getD 0
    let self := { self with
      plotter := { self.plotter with drawn_tree := some t },
      track_id := some t }
    let tp := get_property layer t
    let self := { self with
      property_plotter := { self.property_plotter with
        plotted := some tp, xlabel := "Time", ylabel := layer.color_by } }
    draw_current_time_line viewer self

/-- Membership test `layer not in self.tracks_layers`, by object identity. -/
def inLayers (ls : List TracksLayer) (tl : TracksLayer) : Bool :=
  (ls.map (fun l => l.id)).contains tl.id

/-- Attach the mouse callback and connect the layer's `color_by` and
`colormap` events to `update_edge_colors` (plugin.py lines 66-71). -/
def attach_callbacks (tl : TracksLayer) (s : ArboretumState) : ArboretumState :=
  { s with
    mouse_callback_layers := s.mouse_callback_layers ++ [tl.id],
    color_by_connected := s.color_by_connected ++ [tl.id],
    colormap_connected := s.colormap_connected ++ [tl.id] }

/-- One iteration of the loop in `update_tracks_layers`: attach callbacks
to a layer unless it is already in the cached list. -/
def update_step (s : ArboretumState) (tl : TracksLayer) : ArboretumState :=
  if inLayers s.tracks_layers tl then s else attach_callbacks tl s

/-- The `Tracks` layers of the viewer, in viewer order. -/
def viewerTracksLayers (viewer : NViewer) : List TracksLayer :=
  viewer.layers.filterMap (fun l => match l with
    | NLayer.tracks tl => some tl
    | NLayer.other _ => none)

/-- Model of `Arboretum.update_tracks_layers` (plugin.py lines 55-73):
collect the viewer's `Tracks` layers, attach callbacks to those not already
cached, then replace the cached list. -/
def update_tracks_layers (viewer : NViewer) (s : ArboretumState) :
    ArboretumState :=
  let layers := viewerTracksLayers viewer
  let s1 := layers.foldl update_step s
  { s1 with tracks_layers := layers }

/-- The event connections made by `Arboretum.__init__`
(plugin.py lines 48-50). -/
def init_connections : List (EvtSrc × HandlerName) :=
  [(EvtSrc.layersChanged, HandlerName.updateTracksLayers),
   (EvtSrc.dimsCurrentStep, HandlerName.drawCurrentTimeLine)]

/-- Model of `Arboretum.__init__` (plugin.py lines 28-53): fresh plotters,
the two event connections, an empty `tracks_layers` list, then one call to
`update_tracks_layers`.  The plotters' display state starts empty (their
constructors are in the `visualisation` module outside `src/`). -/
def Arboretum_init (viewer : NViewer) : ArboretumState :=
  let s : ArboretumState :=
    { plotter := { tracks := none, has_tracks := false,
                   drawn_tree := none, time_line := none },
      property_plotter := { tracks := none, plotted := none,
                            xlabel := "", ylabel := "" },
      connections := init_connections,
      tracks_layers := [],
      track_id := none,
      mouse_callback_layers := [],
      color_by_connected := [],
      colormap_connected := [] }
  update_tracks_layers viewer s

/-- Run one connected handler method. -/
def run_handler (viewer : NViewer) (s : ArboretumState) :
    HandlerName → ArboretumState × List PEff
  | HandlerName.updateTracksLayers => (update_tracks_layers viewer s, [])
  | HandlerName.drawCurrentTimeLine => draw_current_time_line viewer s

/-- Host semantics of firing an event source: run, in order, every handler
the widget connected to that source. -/
def fire_event (viewer : NViewer) (s : ArboretumState) (src : EvtSrc) :
    ArboretumState :=
  (s.connections.filter (fun c => c.1 == src)).foldl
    (fun acc c => (run_handler viewer acc c.2).1) s

end NapArb

namespace ArbCore

/-- Empty napari registries, a concrete starting point for witnesses. -/
def emptyRegistries : NapariRegistries :=
  { layer_to_visual := fun _ => none, layer_to_controls := fun _ => none }

/-- A concrete external-function environment for witnesses. -/
def wExt : Ext :=
  { load_hdf := fun _ => (1, [2, 3]),
    localize := fun _ => [[4, 5, 6, 7]],
    track := fun _ _ _ _ => 8,
    trackManager := fun r => { data := r, properties := r + 1 } }

/-- A concrete viewer for witnesses. -/
def wViewer : CoreViewer :=
  { registries := emptyRegistries, layers := [], dock_widgets := [],
    active_layer := "seg0", active_layer_data := 9 }

/-- A concrete widget state for witnesses: a filename is chosen and
localizations are present. -/
def wArbor : ArborState :=
  { filename := some "tracks.h5", segmentation := none, tracks := none,
    localizations := some [[4, 5, 6, 7]], tracker_state := none,
    active_layer := "seg0", status_label := "", optimize_checkbox := true,
    btrack_cfg := 0, volume := 0 }

/-- The combined concrete state for witnesses. -/
def wSys : SysState := { viewer := wViewer, arbor := wArbor }

end ArbCore

namespace NapArb

/-- A property row of a concrete witness layer: track 5 at time 0. -/
def wRow1 : PropRow :=
  { col := fun c => if c = "track_id" then 5 else if c = "t" then 0 else 10 }

/-- A property row of a concrete witness layer: track 5 at time 1. -/
def wRow2 : PropRow :=
  { col := fun c => if c = "track_id" then 5 else if c = "t" then 1 else 11 }

/-- A property row of a concrete witness layer: track 6 at time 0. -/
def wRow3 : PropRow :=
  { col := fun c => if c = "track_id" then 6 else if c = "t" then 0 else 12 }

/-- A concrete `Tracks` layer whose clicks resolve to track id 5. -/
def wLayer : TracksLayer :=
  { id := 1, color_by := "speed", properties := [wRow1, wRow3, wRow2],
    get_value := fun _ => some 5 }

/-- A concrete viewer holding the witness layer, with current step 3. -/
def wViewerN : NViewer :=
  { layers := [NLayer.tracks wLayer], dims := { current_step := [3, 0] } }

/-- A concrete widget state whose plotter already holds tracks. -/
def wState : ArboretumState :=
  { plotter := { tracks := none, has_tracks := true,
                 drawn_tree := none, time_line := none },
    property_plotter := { tracks := none, plotted := none,
                          xlabel := "", ylabel := "" },
    connections := init_connections, tracks_layers := [], track_id := none,
    mouse_callback_layers := [], color_by_connected := [],
    colormap_connected := [] }

/-- A concrete `Tracks` layer whose clicks resolve to the falsy id 0. -/
def cexLayer : TracksLayer :=
  { id := 1, color_by := "speed", properties := [],
    get_value := fun _ => some 0 }

/-- A concrete widget state with empty plotters, for the falsy-click case. -/
def cexState : ArboretumState :=
  { plotter := { tracks := none, has_tracks := false,
                 drawn_tree := none, time_line := none },
    property_plotter := { tracks := none, plotted := none,
                          xlabel := "", ylabel := "" },
    connections := init_connections, tracks_layers := [], track_id := none,
    mouse_callback_layers := [], color_by_connected := [],
    colormap_connected := [] }

/-- A concrete viewer holding the falsy-click layer. -/
def cexViewer : NViewer :=
  { layers := [NLayer.tracks cexLayer], dims := { current_step := [0] } }

end NapArb

namespace ArbCore

/-- C1: `build_plugin(viewer, tracks)` uses `tracks` itself as the manager
when it already is a `TrackManager` and `TrackManager(tracks)` otherwise,
and adds to the viewer exactly one `Tracks` layer named `Tracks` built from
that manager's `data` and `properties`. -/
theorem build_plugin_manager_and_layer (ext : Ext) (viewer : CoreViewer)
    (tracks : TracksArg) :
    (build_plugin ext viewer tracks).layers =
      viewer.layers ++
        [CoreLayer.tracksLayer "Tracks"
          (match tracks with
           | TracksArg.manager m => m
           | TracksArg.raw r => ext.trackManager r).data
          (match tracks with
           | TracksArg.manager m => m
           | TracksArg.raw r => ext.trackManager r).properties] := by
  cases tracks <;> rfl

/-- C3: `build_plugin_v2` adds to the host window exactly one dock widget,
named `arboretum`, in the `right` area. -/
theorem build_plugin_v2_adds_dock_widget (ext : Ext) (arbor0 : ArborState)
    (viewer : CoreViewer) (segmentation : Option Seg) :
    (build_plugin_v2 ext arbor0 viewer segmentation).1.viewer.dock_widgets =
      viewer.dock_widgets ++ [{ name := "arboretum", area := "right" }] := by
  cases segmentation with
  | none => rfl
  | some seg => simp [build_plugin_v2, add_segmentation_layer]

/-- C4: after `_register_tracks_layer`, `layer_to_visual` maps the custom
`Tracks` layer type to `VispyTracksLayer`, `layer_to_controls` maps it to
`QtTracksControls`, and every other key of both registries is unchanged. -/
theorem register_tracks_layer_updates_registries (regs : NapariRegistries)
    (k : LayerType) (hk : k ≠ LayerType.tracks) :
    (register_tracks_layer regs).layer_to_visual LayerType.tracks =
        some VisualClass.vispyTracksLayer ∧
    (register_tracks_layer regs).layer_to_controls LayerType.tracks =
        some ControlsClass.qtTracksControls ∧
    (register_tracks_layer regs).layer_to_visual k = regs.layer_to_visual k ∧
    (register_tracks_layer regs).layer_to_controls k = regs.layer_to_controls k := by
  refine ⟨rfl, rfl, ?_, ?_⟩ <;> simp [register_tracks_layer, hk]

/-- Witness for C4 at the empty registries and the `labels` key. -/
theorem register_tracks_layer_updates_registries_witness :
    (LayerType.labels ≠ LayerType.tracks) ∧
    ((register_tracks_layer emptyRegistries).layer_to_visual LayerType.tracks =
        some VisualClass.vispyTracksLayer ∧
     (register_tracks_layer emptyRegistries).layer_to_controls LayerType.tracks =
        some ControlsClass.qtTracksControls ∧
     (register_tracks_layer emptyRegistries).layer_to_visual LayerType.labels =
        emptyRegistries.layer_to_visual LayerType.labels ∧
     (register_tracks_layer emptyRegistries).layer_to_controls LayerType.labels =
        emptyRegistries.layer_to_controls LayerType.labels) :=
  ⟨by decide,
   register_tracks_layer_updates_registries emptyRegistries LayerType.labels
     (by decide)⟩

/-- C5: `build_plugin_v2` wires the load, localize and track buttons to the
three handlers; each handler builds a worker from its background computation,
connects the matching layer-adding callback to the worker's `returned`
signal, and starts it, and in the resulting run the callback fires only
after the computation has returned, on the computed state. -/
theorem build_plugin_v2_wires_buttons_to_workers (ext : Ext)
    (arbor0 : ArborState) (viewer : CoreViewer) (segmentation : Option Seg)
    (s : SysState) :
    (build_plugin_v2 ext arbor0 viewer segmentation).2.load_button =
        [ButtonHandler.importObjects] ∧
    (build_plugin_v2 ext arbor0 viewer segmentation).2.localize_button =
        [ButtonHandler.localizeObjects] ∧
    (build_plugin_v2 ext arbor0 viewer segmentation).2.track_button =
        [ButtonHandler.trackObjects] ∧
    (import_objects ext).compute = import_compute ext ∧
    (import_objects ext).callback = add_segmentation_and_track_layers ext ∧
    (localize_objects ext).compute = localize_compute ext ∧
    (localize_objects ext).callback = add_localizations_layer ∧
    (track_objects ext).compute = track_compute ext ∧
    (track_objects ext).callback = add_track_layer ext ∧
    (∀ h : ButtonHandler,
      click_button ext h s =
        ((handler_worker ext h).callback ((handler_worker ext h).compute s),
         [WorkerEvent.started, WorkerEvent.computeReturned,
          WorkerEvent.callbackRun])) := by
  exact ⟨rfl, rfl, rfl, rfl, rfl, rfl, rfl, rfl, rfl, fun h => rfl⟩

/-- C7: the worker bodies store exactly the outputs of the external
functions: `_import` stores both components of `utils.load_hdf(filename)`,
`_localize` stores the selected layer as the segmentation and
`utils.localize` of it as the localizations, and `_track` stores
`utils.track` of the localizations as the tracker state.  The statement is
universally quantified over the external implementations, so no computation
is performed by the plugin itself. -/
theorem workers_delegate_to_external (ext : Ext) (s : SysState)
    (fn : String) (locs : Locs)
    (hfn : s.arbor.filename = some fn)
    (hloc : s.arbor.localizations = some locs) :
    (import_compute ext s).arbor.segmentation = some (ext.load_hdf fn).1 ∧
    (import_compute ext s).arbor.tracks = some (ext.load_hdf fn).2 ∧
    (localize_compute ext s).arbor.segmentation =
        some s.viewer.active_layer_data ∧
    (localize_compute ext s).arbor.localizations =
        some (ext.localize s.viewer.active_layer_data) ∧
    (track_compute ext s).arbor.tracker_state =
        some (ext.track locs s.arbor.btrack_cfg s.arbor.optimize_checkbox
          s.arbor.volume) := by
  refine ⟨?_, ?_, rfl, rfl, ?_⟩ <;>
    simp [import_compute, track_compute, hfn, hloc]

/-- Witness for C7 at a concrete environment and state. -/
theorem workers_delegate_to_external_witness :
    wSys.arbor.filename = some "tracks.h5" ∧
    wSys.arbor.localizations = some [[4, 5, 6, 7]] ∧
    ((import_compute wExt wSys).arbor.segmentation =
        some (wExt.load_hdf "tracks.h5").1 ∧
     (import_compute wExt wSys).arbor.tracks =
        some (wExt.load_hdf "tracks.h5").2 ∧
     (localize_compute wExt wSys).arbor.segmentation =
        some wSys.viewer.active_layer_data ∧
     (localize_compute wExt wSys).arbor.localizations =
        some (wExt.localize wSys.viewer.active_layer_data) ∧
     (track_compute wExt wSys).arbor.tracker_state =
        some (wExt.track [[4, 5, 6, 7]] wSys.arbor.btrack_cfg
          wSys.arbor.optimize_checkbox wSys.arbor.volume)) :=
  ⟨rfl, rfl,
   workers_delegate_to_external wExt wSys "tracks.h5" [[4, 5, 6, 7]] rfl rfl⟩

end ArbCore

namespace NapArb

/-- The loop of `update_tracks_layers` leaves every field but the three
callback-attachment lists unchanged, and appends to each of those lists
exactly the ids of the visited layers that are not already in the cached
`tracks_layers` list, in visiting order. -/
theorem foldl_update_step_spec (layers : List TracksLayer)
    (s : ArboretumState) :
    (layers.foldl update_step s).plotter = s.plotter ∧
    (layers.foldl update_step s).property_plotter = s.property_plotter ∧
    (layers.foldl update_step s).connections = s.connections ∧
    (layers.foldl update_step s).tracks_layers = s.tracks_layers ∧
    (layers.foldl update_step s).track_id = s.track_id ∧
    (layers.foldl update_step s).mouse_callback_layers =
      s.mouse_callback_layers ++
        ((layers.filter (fun tl => !inLayers s.tracks_layers tl)).map
          (fun tl => tl.id)) ∧
    (layers.foldl update_step s).color_by_connected =
      s.color_by_connected ++
        ((layers.filter (fun tl => !inLayers s.tracks_layers tl)).map
          (fun tl => tl.id)) ∧
    (layers.foldl update_step s).colormap_connected =
      s.colormap_connected ++
        ((layers.filter (fun tl => !inLayers s.tracks_layers tl)).map
          (fun tl => tl.id)) := by
  induction layers generalizing s with
  | nil => simp
  | cons tl rest ih =>
    cases hb : inLayers s.tracks_layers tl with
    | true =>
      have hstep : update_step s tl = s := by simp [update_step, hb]
      simpa [List.foldl_cons, hstep, List.filter_cons, hb] using ih s
    | false =>
      have hstep : update_step s tl = attach_callbacks tl s := by
        simp [update_step, hb]
      have h2 := ih (attach_callbacks tl s)
      simp only [attach_callbacks] at h2
      simp [List.foldl_cons, hstep, List.filter_cons, hb, attach_callbacks,
        h2, List.append_assoc]

/-- C9: after any call to `update_tracks_layers` (the constructor's call
included), the cached `tracks_layers` equals exactly the viewer's `Tracks`
layers in viewer order, and the mouse callback and the `color_by` and
`colormap` event handlers are attached exactly to the layers that were not
already cached before the call. -/
theorem update_tracks_layers_spec (viewer : NViewer) (s : ArboretumState) :
    (update_tracks_layers viewer s).tracks_layers =
        viewerTracksLayers viewer ∧
    (update_tracks_layers viewer s).mouse_callback_layers =
      s.mouse_callback_layers ++
        (((viewerTracksLayers viewer).filter
            (fun tl => !inLayers s.tracks_layers tl)).map (fun tl => tl.id)) ∧
    (update_tracks_layers viewer s).color_by_connected =
      s.color_by_connected ++
        (((viewerTracksLayers viewer).filter
            (fun tl => !inLayers s.tracks_layers tl)).map (fun tl => tl.id)) ∧
    (update_tracks_layers viewer s).colormap_connected =
      s.colormap_connected ++
        (((viewerTracksLayers viewer).filter
            (fun tl => !inLayers s.tracks_layers tl)).map (fun tl => tl.id)) ∧
    (Arboretum_init viewer).tracks_layers = viewerTracksLayers viewer := by
  have h := foldl_update_step_spec (viewerTracksLayers viewer) s
  exact ⟨rfl, h.2.2.2.2.2.1, h.2.2.2.2.2.2.1, h.2.2.2.2.2.2.2, rfl⟩

/-- C2: when a click on a registered `Tracks` layer resolves to a nonzero
track id, the callback draws the lineage tree for that id, stores the id,
plots the track's `color_by` property values against its `t` values, labels
the axes `Time` and `color_by`, and redraws the current-time line at the
first component of `viewer.dims.current_step`. -/
theorem show_tree_draws_tree_and_plots (viewer : NViewer)
    (self : ArboretumState) (layer : TracksLayer) (pos : Position)
    (tid z : Int) (rest : List Int)
    (hval : layer.get_value pos = some tid)
    (h0 : tid ≠ 0)
    (htracks : self.plotter.has_tracks = true)
    (hstep : viewer.dims.current_step = z :: rest) :
    (show_tree viewer self layer pos).1.plotter.drawn_tree = some tid ∧
    (show_tree viewer self layer pos).1.track_id = some tid ∧
    (show_tree viewer self layer pos).1.property_plotter.plotted =
        some (get_property layer tid) ∧
    (get_property layer tid).1 =
      (layer.properties.filter (fun row => row.col "track_id" == tid)).map
        (fun row => row.col "t") ∧
    (get_property layer tid).2 =
      (layer.properties.filter (fun row => row.col "track_id" == tid)).map
        (fun row => row.col layer.color_by) ∧
    (show_tree viewer self layer pos).1.property_plotter.xlabel = "Time" ∧
    (show_tree viewer self layer pos).1.property_plotter.ylabel =
        layer.color_by ∧
    (show_tree viewer self layer pos).1.plotter.time_line = some z := by
  have hfalsy : pyFalsy (some tid) = false := by
    simp [pyFalsy, h0]
  refine ⟨?_, ?_, ?_, rfl, rfl, ?_, ?_, ?_⟩ <;>
    simp [show_tree, draw_current_time_line, hfalsy, hval, htracks, hstep]

/-- Witness for C2: clicking the witness layer at track id 5 with current
step 3 draws tree 5, plots rows of track 5, and places the line at 3. -/
theorem show_tree_draws_tree_and_plots_witness :
    wLayer.get_value 0 = some 5 ∧
    (5 : Int) ≠ 0 ∧
    wState.plotter.has_tracks = true ∧
    wViewerN.dims.current_step = 3 :: [0] ∧
    ((show_tree wViewerN wState wLayer 0).1.plotter.drawn_tree = some 5 ∧
     (show_tree wViewerN wState wLayer 0).1.track_id = some 5 ∧
     (show_tree wViewerN wState wLayer 0).1.property_plotter.plotted =
        some (get_property wLayer 5) ∧
     (get_property wLayer 5).1 =
       (wLayer.properties.filter
         (fun row => row.col "track_id" == (5 : Int))).map
           (fun row => row.col "t") ∧
     (get_property wLayer 5).2 =
       (wLayer.properties.filter
         (fun row => row.col "track_id" == (5 : Int))).map
           (fun row => row.col wLayer.color_by) ∧
     (show_tree wViewerN wState wLayer 0).1.property_plotter.xlabel =
        "Time" ∧
     (show_tree wViewerN wState wLayer 0).1.property_plotter.ylabel =
        wLayer.color_by ∧
     (show_tree wViewerN wState wLayer 0).1.plotter.time_line = some 3) :=
  ⟨rfl, by decide, rfl, rfl,
   show_tree_draws_tree_and_plots wViewerN wState wLayer 0 5 3 [0]
     rfl (by decide) rfl rfl⟩

/-- C6: the constructor connects the layer-list change event to
`update_tracks_layers` and the current-step change event to
`draw_current_time_line`; firing those events runs exactly those methods,
and when the plotter holds tracks the time line is redrawn at the first
component of `viewer.dims.current_step`. -/
theorem viewer_events_update_plots (viewer : NViewer) (s : ArboretumState)
    (z : Int) (rest : List Int)
    (hconn : s.connections = init_connections)
    (htracks : s.plotter.has_tracks = true)
    (hstep : viewer.dims.current_step = z :: rest) :
    (Arboretum_init viewer).connections = init_connections ∧
    fire_event viewer s EvtSrc.layersChanged = update_tracks_layers viewer s ∧
    fire_event viewer s EvtSrc.dimsCurrentStep =
        (draw_current_time_line viewer s).1 ∧
    (fire_event viewer s EvtSrc.dimsCurrentStep).plotter.time_line =
        some z := by
  refine ⟨?_, ?_, ?_, ?_⟩
  · have h := foldl_update_step_spec (viewerTracksLayers viewer)
    exact (h _).2.2.1
  · simp only [fire_event, hconn]; rfl
  · simp only [fire_event, hconn]; rfl
  · have h3 : fire_event viewer s EvtSrc.dimsCurrentStep =
        (draw_current_time_line viewer s).1 := by
      simp only [fire_event, hconn]; rfl
    rw [h3]
    simp [draw_current_time_line, htracks, hstep]

/-- Witness for C6 at the witness viewer and state. -/
theorem viewer_events_update_plots_witness :
    wState.connections = init_connections ∧
    wState.plotter.has_tracks = true ∧
    wViewerN.dims.current_step = 3 :: [0] ∧
    ((Arboretum_init wViewerN).connections = init_connections ∧
     fire_event wViewerN wState EvtSrc.layersChanged =
        update_tracks_layers wViewerN wState ∧
     fire_event wViewerN wState EvtSrc.dimsCurrentStep =
        (draw_current_time_line wViewerN wState).1 ∧
     (fire_event wViewerN wState EvtSrc.dimsCurrentStep).plotter.time_line =
        some 3) :=
  ⟨rfl, rfl, rfl,
   viewer_events_update_plots wViewerN wState 3 [0] rfl rfl rfl⟩

/-- C8 fails as stated: on a click resolving to the falsy track id 0 the
callback does return early, but the plotters are not left unchanged,
because both plotters' `tracks` attributes are assigned the clicked layer
before the early return. -/
theorem show_tree_falsy_changes_plotter :
    pyFalsy (cexLayer.get_value 0) = true ∧
    (show_tree cexViewer cexState cexLayer 0).1.plotter ≠ cexState.plotter := by
  refine ⟨rfl, fun h => ?_⟩
  have htr := congrArg PlotterState.tracks h
  simp [show_tree, cexLayer, cexState, pyFalsy] at htr

/-- C8 amended: on a click whose resolved value is falsy (`None` or `0`)
the callback returns early with no effects: no tree is drawn, nothing is
plotted, the labels, the stored `track_id` and the cached layer list are
unchanged, and a track with id 0 can never be selected; however both
plotters' `tracks` attributes have already been set to the clicked layer. -/
theorem show_tree_falsy_early_return (viewer : NViewer)
    (self : ArboretumState) (layer : TracksLayer) (pos : Position)
    (h : pyFalsy (layer.get_value pos) = true) :
    (show_tree viewer self layer pos).2 = [] ∧
    (show_tree viewer self layer pos).1.plotter.tracks = some layer.id ∧
    (show_tree viewer self layer pos).1.property_plotter.tracks =
        some layer.id ∧
    (show_tree viewer self layer pos).1.plotter.drawn_tree =
        self.plotter.drawn_tree ∧
    (show_tree viewer self layer pos).1.plotter.time_line =
        self.plotter.time_line ∧
    (show_tree viewer self layer pos).1.plotter.has_tracks =
        self.plotter.has_tracks ∧
    (show_tree viewer self layer pos).1.property_plotter.plotted =
        self.property_plotter.plotted ∧
    (show_tree viewer self layer pos).1.property_plotter.xlabel =
        self.property_plotter.xlabel ∧
    (show_tree viewer self layer pos).1.property_plotter.ylabel =
        self.property_plotter.ylabel ∧
    (show_tree viewer self layer pos).1.track_id = self.track_id ∧
    (show_tree viewer self layer pos).1.tracks_layers =
        self.tracks_layers ∧
    (show_tree viewer self layer pos).1.mouse_callback_layers =
        self.mouse_callback_layers := by
  refine ⟨?_, ?_, ?_, ?_, ?_, ?_, ?_, ?_, ?_, ?_, ?_, ?_⟩ <;>
    simp [show_tree, h]

/-- Witness for the amended C8 at the falsy-click layer. -/
theorem show_tree_falsy_early_return_witness :
    pyFalsy (cexLayer.get_value 0) = true ∧
    ((show_tree cexViewer cexState cexLayer 0).2 = [] ∧
     (show_tree cexViewer cexState cexLayer 0).1.plotter.tracks =
        some cexLayer.id ∧
     (show_tree cexViewer cexState cexLayer 0).1.property_plotter.tracks =
        some cexLayer.id ∧
     (show_tree cexViewer cexState cexLayer 0).1.plotter.drawn_tree =
        cexState.plotter.drawn_tree ∧
     (show_tree cexViewer cexState cexLayer 0).1.plotter.time_line =
        cexState.plotter.time_line ∧
     (show_tree cexViewer cexState cexLayer 0).1.plotter.has_tracks =
        cexState.plotter.has_tracks ∧
     (show_tree cexViewer cexState cexLayer 0).1.property_plotter.plotted =
        cexState.property_plotter.plotted ∧
     (show_tree cexViewer cexState cexLayer 0).1.property_plotter.xlabel =
        cexState.property_plotter.xlabel ∧
     (show_tree cexViewer cexState cexLayer 0).1.property_plotter.ylabel =
        cexState.property_plotter.ylabel ∧
     (show_tree cexViewer cexState cexLayer 0).1.track_id =
        cexState.track_id ∧
     (show_tree cexViewer cexState cexLayer 0).1.tracks_layers =
        cexState.tracks_layers ∧
     (show_tree cexViewer cexState cexLayer 0).1.mouse_callback_layers =
        cexState.mouse_callback_layers) :=
  ⟨rfl, show_tree_falsy_early_return cexViewer cexState cexLayer 0 rfl⟩

/-- C10: when the tree plotter holds no tracks, `draw_current_time_line`
returns the state unchanged with an empty effect trace: it neither reads
`viewer.dims.current_step` nor touches the plotter. -/
theorem draw_current_time_line_no_tracks (viewer : NViewer)
    (s : ArboretumState) (h : s.plotter.has_tracks = false) :
    draw_current_time_line viewer s = (s, []) := by
  simp [draw_current_time_line, h]

/-- Witness for C10 at the empty-plotter state. -/
theorem draw_current_time_line_no_tracks_witness :
    cexState.plotter.has_tracks = false ∧
    draw_current_time_line cexViewer cexState = (cexState, []) :=
  ⟨rfl, draw_current_time_line_no_tracks cexViewer cexState rfl⟩

end NapArb
